import Mathlib

/-
  Verification development for the business-connection-platform HTTP service
  (src/src/index.ts): an Express application with a JSON body-parsing
  middleware (`app.use(express.json())`), a single route `app.get('/')`
  answering a fixed health payload, framework-default handling of every
  other request, and a conditional `app.listen` guarded by an entry-point
  check (`import.meta.url === "file://" + process.argv[1]`).

  The embedding models one HTTP exchange as a pure function from a request
  to a response, following the Express 4/5 pipeline order: the json
  middleware runs first (rejecting non-`utf-` charsets and unsupported
  content encodings with 415, oversized bodies with 413 and syntactically
  invalid JSON bodies with 400), then the router dispatches
  by method and path (GET / answers 200; HEAD / is served by the GET
  handler with the body stripped; OPTIONS / is answered by the router's
  default 200 with the Allow list; everything else falls to the final
  handler's 404).  Express's `x-powered-by` setting is enabled by default
  and the source never disables it, so every response carries the header
  `X-Powered-By: Express`.
-/

namespace BCP

/- Characters written via their code points. -/

def lbrace : Char := Char.ofNat 123

def rbrace : Char := Char.ofNat 125

def dquote : Char := Char.ofNat 34

def bslash : Char := Char.ofNat 92

def htab : Char := Char.ofNat 9

def lf : Char := Char.ofNat 10

def cr : Char := Char.ofNat 13

/-! ### JSON syntactic validity (the acceptance behaviour of `JSON.parse`)

`express.json()` hands the raw body to `JSON.parse` (ECMA-404 grammar);
a throw becomes a 400 `entity.parse.failed` error.  The parser below is a
recogniser for that grammar: it consumes one JSON value and returns the
remaining input, `none` on a syntax error. -/

def isJsonWs (c : Char) : Bool :=
  c == ' ' || c == htab || c == lf || c == cr

def skipWs : List Char → List Char
  | [] => []
  | c :: rest => if isJsonWs c then skipWs rest else c :: rest

def isHexDigit (c : Char) : Bool :=
  c.isDigit || (97 ≤ c.toNat && c.toNat ≤ 102) || (65 ≤ c.toNat && c.toNat ≤ 70)

/-- Recognise the remainder of a JSON string, entered just after the
opening quote: plain characters above U+001F, the eight single-character
escapes, and `\uXXXX` with four hex digits. -/
def parseStringRest : Nat → List Char → Option (List Char)
  | 0, _ => none
  | Nat.succ fuel, s =>
    match s with
    | [] => none
    | c :: rest =>
      if c == dquote then some rest
      else if c == bslash then
        match rest with
        | [] => none
        | e :: rest2 =>
          if e == dquote || e == bslash || e == '/' || e == 'b' || e == 'f'
              || e == 'n' || e == 'r' || e == 't' then
            parseStringRest fuel rest2
          else if e == 'u' then
            match rest2 with
            | h1 :: h2 :: h3 :: h4 :: rest3 =>
              if isHexDigit h1 && isHexDigit h2 && isHexDigit h3 && isHexDigit h4 then
                parseStringRest fuel rest3
              else none
            | _ => none
          else none
      else if 32 ≤ c.toNat then parseStringRest fuel rest
      else none

def dropDigits : List Char → List Char
  | [] => []
  | c :: rest => if c.isDigit then dropDigits rest else c :: rest

/-- Exponent part of a JSON number: optional, `e`/`E`, optional sign, one
or more digits. -/
def parseExpPart (s : List Char) : Option (List Char) :=
  match s with
  | [] => some []
  | c :: rest =>
    if c == 'e' || c == 'E' then
      let rest2 :=
        match rest with
        | s1 :: r => if s1 == '+' || s1 == '-' then r else rest
        | [] => rest
      match rest2 with
      | d :: r3 => if d.isDigit then some (dropDigits r3) else none
      | [] => none
    else some (c :: rest)

/-- Fraction part of a JSON number: optional, `.` followed by one or more
digits, then the exponent part. -/
def parseFracPart (s : List Char) : Option (List Char) :=
  match s with
  | '.' :: rest =>
    match rest with
    | d :: rest2 => if d.isDigit then parseExpPart (dropDigits rest2) else none
    | [] => none
  | _ => parseExpPart s

/-- Recognise a JSON number starting at its first digit (a possible minus
sign has already been consumed): `0` or a nonzero digit followed by more
digits, then fraction and exponent. -/
def parseNumberRest (s : List Char) : Option (List Char) :=
  match s with
  | [] => none
  | c :: rest =>
    if c == '0' then parseFracPart rest
    else if c.isDigit then parseFracPart (dropDigits rest)
    else none

/-- Match a literal keyword (`true`, `false`, `null`) character by
character. -/
def stripLit : List Char → List Char → Option (List Char)
  | [], s => some s
  | _ :: _, [] => none
  | l :: ls, c :: rest => if c == l then stripLit ls rest else none

mutual

/-- Recognise one JSON value (object, array, string, number, `true`,
`false`, `null`), preceded by optional whitespace. -/
def parseValue : Nat → List Char → Option (List Char)
  | 0, _ => none
  | Nat.succ fuel, s =>
    match skipWs s with
    | [] => none
    | c :: rest =>
      if c == lbrace then parseMembersStart fuel rest
      else if c == '[' then parseElementsStart fuel rest
      else if c == dquote then parseStringRest (rest.length + 1) rest
      else if c == '-' then parseNumberRest rest
      else if c.isDigit then parseNumberRest (c :: rest)
      else
        match stripLit "true".toList (c :: rest) with
        | some r => some r
        | none =>
          match stripLit "false".toList (c :: rest) with
          | some r => some r
          | none =>
            match stripLit "null".toList (c :: rest) with
            | some r => some r
            | none => none

/-- Inside an object, just after the opening brace: either an immediate
closing brace or a member list. -/
def parseMembersStart : Nat → List Char → Option (List Char)
  | 0, _ => none
  | Nat.succ fuel, s =>
    match skipWs s with
    | [] => none
    | c :: rest =>
      if c == rbrace then some rest
      else parseMember fuel (c :: rest)

/-- One `"key": value` member followed by `,` and another member, or the
closing brace. -/
def parseMember : Nat → List Char → Option (List Char)
  | 0, _ => none
  | Nat.succ fuel, s =>
    match skipWs s with
    | [] => none
    | c :: rest =>
      if c == dquote then
        match parseStringRest (rest.length + 1) rest with
        | none => none
        | some rest2 =>
          match skipWs rest2 with
          | [] => none
          | c2 :: rest3 =>
            if c2 == ':' then
              match parseValue fuel rest3 with
              | none => none
              | some rest4 =>
                match skipWs rest4 with
                | [] => none
                | c3 :: rest5 =>
                  if c3 == ',' then parseMember fuel rest5
                  else if c3 == rbrace then some rest5
                  else none
            else none
      else none

/-- Inside an array, just after the opening bracket: either an immediate
closing bracket or an element list. -/
def parseElementsStart : Nat → List Char → Option (List Char)
  | 0, _ => none
  | Nat.succ fuel, s =>
    match skipWs s with
    | [] => none
    | c :: rest =>
      if c == ']' then some rest
      else parseElement fuel (c :: rest)

/-- One array element followed by `,` and another element, or the closing
bracket. -/
def parseElement : Nat → List Char → Option (List Char)
  | 0, _ => none
  | Nat.succ fuel, s =>
    match parseValue fuel s with
    | none => none
    | some rest =>
      match skipWs rest with
      | [] => none
      | c :: rest2 =>
        if c == ',' then parseElement fuel rest2
        else if c == ']' then some rest2
        else none

end

/-- `JSON.parse` accepts the text: one value, then only trailing
whitespace.  Fuel `2 * length + 2` dominates the recursion depth, which
consumes at least one character every two nested calls. -/
def jsonWf (body : String) : Bool :=
  let s := body.toList
  match parseValue (2 * s.length + 2) s with
  | some rest => skipWs rest == []
  | none => false

/-- body-parser's `parse` for `express.json()` with the default options:
an empty body yields `{}` without error; `strict: true` requires the
first non-whitespace character to be `{` or `[`; otherwise the body must
be accepted by `JSON.parse`. -/
def jsonBodyAccepted (body : String) : Bool :=
  if body.length == 0 then true
  else
    match (skipWs body.toList).head? with
    | none => false
    | some c => if c == lbrace || c == '[' then jsonWf body else false

/-! ### Requests, the middleware, the router -/

inductive Method where
  | GET
  | POST
  | PUT
  | DELETE
  | HEAD
  | OPTIONS
  | PATCH
  deriving DecidableEq

/-- ASCII lowercase of one character (HTTP field names and media types
compare case-insensitively over ASCII). -/
def lowerChar (c : Char) : Char :=
  if 65 ≤ c.toNat && c.toNat ≤ 90 then Char.ofNat (c.toNat + 32) else c

def lowerStr (s : String) : String :=
  String.mk (s.toList.map lowerChar)

def takeUntilSemi : List Char → List Char
  | [] => []
  | c :: rest => if c == ';' then [] else c :: takeUntilSemi rest

def isOws (c : Char) : Bool := c == ' ' || c == htab

/-- The media type of a `Content-Type` value: everything before the first
`;` (dropping parameters such as `charset`), surrounding whitespace
stripped, lowercased. -/
def mediaType (ct : String) : String :=
  let l := takeUntilSemi ct.toList
  let l := l.dropWhile isOws
  let l := (l.reverse.dropWhile isOws).reverse
  String.mk (l.map lowerChar)

def Method.name : Method → String
  | .GET => "GET"
  | .POST => "POST"
  | .PUT => "PUT"
  | .DELETE => "DELETE"
  | .HEAD => "HEAD"
  | .OPTIONS => "OPTIONS"
  | .PATCH => "PATCH"

/-- One HTTP request.  `body = none` models a request without a payload
(no `Content-Length`/`Transfer-Encoding`); `body = some b` a payload of
bytes `b`. -/
structure Request where
  method : Method
  path : String
  query : List (String × String)
  headers : List (String × String)
  body : Option String
  deriving DecidableEq

/-- Case-insensitive header lookup, as HTTP field names are
case-insensitive. -/
def reqHeader (req : Request) (nm : String) : Option String :=
  (req.headers.find? (fun p => lowerStr p.1 == lowerStr nm)).map (fun p => p.2)

/-- type-is matching for `express.json()`'s default `type:
"application/json"`: the media type (parameters such as `charset`
stripped) compares case-insensitively. -/
def hasJsonContentType (req : Request) : Bool :=
  match reqHeader req "content-type" with
  | none => false
  | some ct => mediaType ct == "application/json"

/-- Split a header value at every `;`, keeping empty segments. -/
def splitSemis : List Char → List (List Char)
  | [] => [[]]
  | c :: rest =>
    if c == ';' then [] :: splitSemis rest
    else
      match splitSemis rest with
      | [] => [[c]]
      | seg :: segs => (c :: seg) :: segs

/-- Split a parameter segment at its first `=`, when one is present. -/
def splitEq : List Char → Option (List Char × List Char)
  | [] => none
  | c :: rest =>
    if c == '=' then some ([], rest)
    else
      match splitEq rest with
      | none => none
      | some (n, v) => some (c :: n, v)

def trimOws (l : List Char) : List Char :=
  ((l.dropWhile isOws).reverse.dropWhile isOws).reverse

/-- Strip one pair of surrounding double quotes from a parameter value. -/
def unquote (l : List Char) : List Char :=
  match l with
  | [] => []
  | c :: rest =>
    if c == dquote then
      match rest.reverse with
      | [] => l
      | d :: mid => if d == dquote then mid.reverse else l
    else l

/-- The `charset` parameter of a `Content-Type` value, as the
content-type library's parse surfaces it and body-parser's `getCharset`
lowercases it: the value of the first `charset=...` parameter, quotes
stripped. -/
def charsetParam (ct : String) : Option String :=
  (splitSemis ct.toList).tail.findSome? (fun seg =>
    match splitEq seg with
    | none => none
    | some (n, v) =>
      if String.mk ((trimOws n).map lowerChar) == "charset" then
        some (String.mk ((unquote (trimOws v)).map lowerChar))
      else none)

/-- body-parser's `getCharset(req) || 'utf-8'`: the declared charset,
defaulting to `utf-8` when absent. -/
def reqCharset (req : Request) : String :=
  match reqHeader req "content-type" with
  | none => "utf-8"
  | some ct => (charsetParam ct).getD "utf-8"

/-- body-parser's charset assertion for JSON, made before the body is
read: `charset.slice(0, 4) !== 'utf-'` is answered 415
`charset.unsupported`. -/
def charsetUtfPrefixed (cs : String) : Bool :=
  cs.toList.take 4 == "utf-".toList

/-- The `utf-` charset names iconv-lite can decode; raw-body answers 415
`encoding.unsupported` for a `utf-` charset outside this table. -/
def iconvUtfCharsets : List String :=
  ["utf-8", "utf-16", "utf-16le", "utf-16be", "utf-7", "utf-7-imap"]

/-- read's `(req.headers['content-encoding'] || 'identity')
.toLowerCase()`. -/
def contentEncoding (req : Request) : String :=
  match reqHeader req "content-encoding" with
  | none => "identity"
  | some e => lowerStr e

/-- The content encodings read's `contentstream` can undo; any other is
answered 415 `encoding.unsupported` before the body is read. -/
def supportedEncodings : List String := ["identity", "gzip", "deflate"]

/-- `express.json()`'s default `limit: "100kb"` = 102400 bytes
(raw-body rejects larger payloads with 413 before parsing). -/
def jsonBodyLimit : Nat := 102400

inductive MwResult where
  | ok
  | reject (status : Nat)
  deriving DecidableEq

/-- The `express.json()` middleware on one request: it acts only when the
request has a body whose declared content type matches.  The checks run
in body-parser's order for a request with a known content length: the
charset's `utf-` prefix (else 415 `charset.unsupported`), the content
encoding (else 415 `encoding.unsupported`, thrown by `contentstream`
before raw-body reads), the size limit (413 `request entity too large`),
raw-body's iconv charset table (415 `encoding.unsupported`), then the
parse (400 `entity.parse.failed`).  `body` holds the payload raw-body
reads, i.e. after any gzip/deflate decoding. -/
def jsonMiddleware (req : Request) : MwResult :=
  match req.body with
  | none => .ok
  | some b =>
    if hasJsonContentType req then
      if charsetUtfPrefixed (reqCharset req) = false then .reject 415
      else if contentEncoding req ∉ supportedEncodings then .reject 415
      else if b.length > jsonBodyLimit then .reject 413
      else if reqCharset req ∉ iconvUtfCharsets then .reject 415
      else if jsonBodyAccepted b then .ok
      else .reject 400
    else .ok

/-- One HTTP response.  `contentType` is the media type of the
`Content-Type` field (Express appends `; charset=utf-8`); `headers` holds
the remaining response fields the model tracks. -/
structure Response where
  status : Nat
  body : String
  contentType : Option String
  headers : List (String × String)
  deriving DecidableEq

def resHeader (r : Response) (nm : String) : Option String :=
  (r.headers.find? (fun p => lowerStr p.1 == lowerStr nm)).map (fun p => p.2)

/-- Express's `x-powered-by` setting defaults to enabled and the source
never disables it, so `X-Powered-By: Express` is set on every
response. -/
def poweredBy : List (String × String) := [("X-Powered-By", "Express")]

/-- finalhandler's HTML error document around a message. -/
def errorHtml (msg : String) : String :=
  "<!DOCTYPE html>\n<html lang=\"en\">\n<head>\n<meta charset=\"utf-8\">\n"
    ++ "<title>Error</title>\n</head>\n<body>\n<pre>" ++ msg
    ++ "</pre>\n</body>\n</html>\n"

/-- finalhandler's 404 for a request no route matched. -/
def notFoundResponse (req : Request) : Response :=
  { status := 404
  , body := errorHtml ("Cannot " ++ req.method.name ++ " " ++ req.path)
  , contentType := some "text/html"
  , headers := poweredBy }

/-- The body of `res.json({ status: 'ok', message: 'Server running' })`:
`JSON.stringify` of the literal, keys in insertion order. -/
def healthBody : String :=
  "\x7b\"status\":\"ok\",\"message\":\"Server running\"\x7d"

/-- The router of src/src/index.ts.  One registered route, `GET /`, whose
handler answers `res.json(...)`.  Express's router also serves `HEAD /`
through the GET handler (`res.send` omits the body of a HEAD response) and
answers `OPTIONS /` itself with 200 and the Allow list of the matching
route; everything else falls through to finalhandler's 404. -/
def route (req : Request) : Response :=
  if req.path = "/" then
    match req.method with
    | .GET =>
        { status := 200
        , body := healthBody
        , contentType := some "application/json"
        , headers := poweredBy }
    | .HEAD =>
        { status := 200
        , body := ""
        , contentType := some "application/json"
        , headers := poweredBy }
    | .OPTIONS =>
        { status := 200
        , body := "GET,HEAD"
        , contentType := some "text/html"
        , headers := ("Allow", "GET,HEAD") :: poweredBy }
    | _ => notFoundResponse req
  else notFoundResponse req

/-- The middleware's rejections as rendered by Express's default error
handler: the error status with finalhandler's HTML document.  (The exact
400 message text is the engine's `SyntaxError` message and the 415
messages name the offending charset or encoding; the model uses fixed
descriptions, which no claim inspects.) -/
def middlewareErrorResponse (status : Nat) : Response :=
  { status := status
  , body :=
      errorHtml (if status == 413 then "request entity too large"
                 else if status == 415 then "unsupported charset or content encoding"
                 else "entity.parse.failed")
  , contentType := some "text/html"
  , headers := poweredBy }

/-- The whole app on one request: `app.use(express.json())` runs before
the router, so a middleware rejection short-circuits dispatch. -/
def handle (req : Request) : Response :=
  match jsonMiddleware req with
  | .reject s => middlewareErrorResponse s
  | .ok => route req

/-! ### Module evaluation: the conditional listen and the port -/

/-- The process-level inputs the module body reads: `import.meta.url`,
`process.argv[1]`, and `process.env.PORT`. -/
structure ProcessEnv where
  importMetaUrl : String
  argv1 : String
  portVar : Option String
  deriving DecidableEq

/-- `const isMainModule = import.meta.url === file00 + process.argv[1]`
with the `file://` scheme spelled out. -/
def isMainModule (env : ProcessEnv) : Bool :=
  env.importMetaUrl == "file://" ++ env.argv1

/-- `process.env.PORT ?? 3000`: the environment value is a string when
present; the fallback is the number literal 3000. -/
def resolvedPort (env : ProcessEnv) : String ⊕ Nat :=
  match env.portVar with
  | some s => Sum.inl s
  | none => Sum.inr 3000

/-- What evaluating the module produces: the exported app and, when
`app.listen` ran, the port it was given. -/
structure ModuleOutcome where
  exportedApp : Request → Response
  listening : Option (String ⊕ Nat)

/-- Evaluating src/src/index.ts under a process environment: the app is
always constructed and exported; `app.listen(PORT, ...)` runs only under
`if (isMainModule)`. -/
def runModule (env : ProcessEnv) : ModuleOutcome :=
  { exportedApp := handle
  , listening := if isMainModule env then some (resolvedPort env) else none }

/-! ### Concrete requests used by witnesses and counterexamples -/

/-- A plain `GET /` with no body. -/
def plainGetRoot : Request :=
  { method := .GET, path := "/", query := [], headers := [], body := none }

/-- `GET /` carrying a syntactically invalid JSON body (the spec's own
example `\x7b"invalid": json\x7d`) declared as JSON. -/
def getRootBadBody : Request :=
  { method := .GET, path := "/", query := []
  , headers := [("Content-Type", "application/json")]
  , body := some "\x7b\"invalid\": json\x7d" }

/-- `HEAD /` with no body. -/
def headRoot : Request :=
  { method := .HEAD, path := "/", query := [], headers := [], body := none }

/-- `POST /` with `Content-Type: application/json` and the valid body
`\x7b\x7d`. -/
def postRootEmptyObject : Request :=
  { method := .POST, path := "/", query := []
  , headers := [("Content-Type", "application/json")]
  , body := some "\x7b\x7d" }

/-- A JSON-declared body of 102401 bytes (`x` repeated), one past the
parser's limit; also not valid JSON. -/
def oversizedBody : String := String.mk (List.replicate 102401 'x')

/-- `POST /upload` carrying the oversized body. -/
def postOversized : Request :=
  { method := .POST, path := "/upload", query := []
  , headers := [("Content-Type", "application/json")]
  , body := some oversizedBody }

/-- `POST /` carrying the oversized body. -/
def postRootOversized : Request :=
  { method := .POST, path := "/", query := []
  , headers := [("Content-Type", "application/json")]
  , body := some oversizedBody }

/-- `POST /upload` carrying the oversized body with `Content-Type`
exactly `application/json` and an unknown content encoding. -/
def postOversizedSnappy : Request :=
  { method := .POST, path := "/upload", query := []
  , headers := [("Content-Type", "application/json"), ("Content-Encoding", "snappy")]
  , body := some oversizedBody }

/-- `GET /` with query parameters and a user-agent header, no body. -/
def getRootQuery : Request :=
  { method := .GET, path := "/", query := [("test", "value"), ("foo", "bar")]
  , headers := [("User-Agent", "curl/7.68.0")], body := none }

/-- `POST /anything` with a JSON-declared, syntactically invalid body of
one opening brace. -/
def postBadBody : Request :=
  { method := .POST, path := "/anything", query := []
  , headers := [("Content-Type", "application/json")]
  , body := some "\x7b" }

/-! ### Shared lemmas about the pipeline -/

theorem oversized_length : oversizedBody.length = 102401 := by
  have h : oversizedBody.length = (List.replicate 102401 'x').length := rfl
  rw [h, List.length_replicate]

theorem oversized_head : oversizedBody.toList = 'x' :: List.replicate 102400 'x' := by
  show List.replicate 102401 'x' = _
  rw [show (102401 : Nat) = 102400 + 1 from rfl, List.replicate_succ]

theorem oversized_skipWs :
    skipWs oversizedBody.toList = 'x' :: List.replicate 102400 'x' := by
  rw [show oversizedBody.toList = 'x' :: List.replicate 102400 'x' from oversized_head]
  exact rfl

theorem oversized_invalid : jsonBodyAccepted oversizedBody = false := by
  unfold jsonBodyAccepted
  rw [oversized_length, oversized_skipWs]
  decide

/-- Every charset iconv-lite decodes here carries the `utf-` prefix
body-parser demands. -/
theorem iconv_charset_utf (cs : String) (h : cs ∈ iconvUtfCharsets) :
    charsetUtfPrefixed cs = true := by
  fin_cases h <;> decide

/-- The middleware either passes the request on or rejects with 415
(charset or encoding), 413 (oversized) or 400 (parse failure): no other
status originates there. -/
theorem jsonMiddleware_cases (req : Request) :
    jsonMiddleware req = MwResult.ok ∨ jsonMiddleware req = MwResult.reject 400 ∨
      jsonMiddleware req = MwResult.reject 413 ∨
      jsonMiddleware req = MwResult.reject 415 := by
  unfold jsonMiddleware
  cases req.body with
  | none => exact Or.inl rfl
  | some b =>
    by_cases hct : hasJsonContentType req = true
    · by_cases hpre : charsetUtfPrefixed (reqCharset req) = false
      · simp [hct, hpre]
      · by_cases henc : contentEncoding req ∈ supportedEncodings
        · by_cases hlen : jsonBodyLimit < b.length
          · simp [hct, hpre, henc, hlen]
          · by_cases hics : reqCharset req ∈ iconvUtfCharsets
            · by_cases hok : jsonBodyAccepted b = true
              · simp [hct, hpre, henc, hlen, hics, hok]
              · simp [hct, hpre, henc, hlen, hics, hok]
            · simp [hct, hpre, henc, hlen, hics]
        · simp [hct, hpre, henc]
    · simp [hct]

/-- The router answers only 200 or 404. -/
theorem route_status (req : Request) :
    (route req).status = 200 ∨ (route req).status = 404 := by
  unfold route
  by_cases hp : req.path = "/"
  · simp only [hp, if_pos rfl]
    cases req.method <;> simp [notFoundResponse]
  · simp [hp, notFoundResponse]

/-- A JSON-declared body over the size limit, with a decodable charset
and a supported content encoding, is rejected 413 before parsing and
before routing. -/
theorem oversized_reject (req : Request) (b : String)
    (hb : req.body = some b) (hct : hasJsonContentType req = true)
    (hcs : reqCharset req ∈ iconvUtfCharsets)
    (henc : contentEncoding req ∈ supportedEncodings)
    (hlen : b.length > jsonBodyLimit) :
    handle req = middlewareErrorResponse 413 := by
  have hpre : charsetUtfPrefixed (reqCharset req) = true :=
    iconv_charset_utf _ hcs
  have hmw : jsonMiddleware req = MwResult.reject 413 := by
    unfold jsonMiddleware
    rw [hb]
    simp [hct, hpre, henc, hlen]
  unfold handle
  rw [hmw]

/-- A JSON-declared body whose content encoding the middleware cannot
undo is rejected 415 before the body is read. -/
theorem encoding_reject (req : Request) (b : String)
    (hb : req.body = some b) (hct : hasJsonContentType req = true)
    (hpre : charsetUtfPrefixed (reqCharset req) = true)
    (henc : contentEncoding req ∉ supportedEncodings) :
    handle req = middlewareErrorResponse 415 := by
  have hmw : jsonMiddleware req = MwResult.reject 415 := by
    unfold jsonMiddleware
    rw [hb]
    simp [hct, hpre, henc]
  unfold handle
  rw [hmw]

/-- A request the middleware passes on is answered by the router. -/
theorem handle_ok (req : Request) (hmw : jsonMiddleware req = MwResult.ok) :
    handle req = route req := by
  unfold handle
  rw [hmw]

/-- The `GET /` route answer, once the middleware has passed the request
on. -/
theorem handle_get_root (req : Request)
    (hm : req.method = Method.GET) (hp : req.path = "/")
    (hmw : jsonMiddleware req = MwResult.ok) :
    handle req =
      { status := 200, body := healthBody
      , contentType := some "application/json", headers := poweredBy } := by
  rw [handle_ok req hmw]
  unfold route
  rw [hp, hm]
  simp

/-! ### The claims -/

/-- C1 counterexample: a request with method GET and path `/` whose
JSON-declared body is the spec's own invalid example is answered 400 by
the middleware, not 200, so the claim as universally stated over all GET
`/` requests fails. -/
theorem c1_counterexample :
    getRootBadBody.method = Method.GET ∧ getRootBadBody.path = "/" ∧
      (handle getRootBadBody).status = 400 ∧
      ¬ (handle getRootBadBody).status = 200 := by
  decide

/-- C1 (amended): every request with method GET and path `/` that the
body-parsing middleware passes on — in particular every such request
without a body, regardless of query parameters, headers, or user-agent —
is answered with status 200, body exactly the health JSON, and
content-type `application/json`. -/
theorem c1_health_route (req : Request)
    (hm : req.method = Method.GET) (hp : req.path = "/")
    (hmw : jsonMiddleware req = MwResult.ok) :
    (handle req).status = 200 ∧ (handle req).body = healthBody ∧
      (handle req).contentType = some "application/json" := by
  rw [handle_get_root req hm hp hmw]
  exact ⟨rfl, rfl, rfl⟩

/-- C1 witness: the plain bodyless `GET /`. -/
theorem c1_health_route_witness :
    (handle plainGetRoot).status = 200 ∧ (handle plainGetRoot).body = healthBody ∧
      (handle plainGetRoot).contentType = some "application/json" :=
  c1_health_route plainGetRoot rfl rfl rfl

/-- C2 counterexample: `HEAD /` has a method other than GET yet is
answered 200 (the router serves GET handlers for HEAD), not 404, so the
claim fails as stated. -/
theorem c2_counterexample :
    headRoot.path = "/" ∧ ¬ headRoot.method = Method.GET ∧
      (handle headRoot).status = 200 ∧ ¬ (handle headRoot).status = 404 := by
  decide

/-- C2 (amended): every request the middleware passes on whose path is
not `/`, or whose path is `/` with a method other than GET, HEAD and
OPTIONS, is answered 404. -/
theorem c2_not_found (req : Request)
    (hmw : jsonMiddleware req = MwResult.ok)
    (h : ¬ req.path = "/" ∨
      (req.path = "/" ∧ ¬ req.method = Method.GET ∧ ¬ req.method = Method.HEAD ∧
        ¬ req.method = Method.OPTIONS)) :
    (handle req).status = 404 := by
  rw [handle_ok req hmw]
  unfold route
  rcases h with h | ⟨hp, hg, hh, ho⟩
  · simp [h, notFoundResponse]
  · rw [hp]
    cases hm : req.method <;> simp_all [notFoundResponse]

/-- C2 witness: a POST to `/` with `Content-Type: application/json` and
the valid body of an empty object parses and is answered 404. -/
theorem c2_not_found_witness : (handle postRootEmptyObject).status = 404 :=
  c2_not_found postRootEmptyObject (by decide)
    (Or.inr ⟨rfl, by decide, by decide, by decide⟩)

/-- C3 counterexample: a JSON-declared body that is syntactically invalid
but larger than the parser's limit is rejected 413 by the middleware, not
400, so the claim fails as universally stated over all invalid bodies. -/
theorem c3_counterexample :
    hasJsonContentType postOversized = true ∧
      jsonBodyAccepted oversizedBody = false ∧
      (handle postOversized).status = 413 ∧
      ¬ (handle postOversized).status = 400 := by
  have h := oversized_reject postOversized oversizedBody rfl (by decide)
    (by decide) (by decide) (by rw [oversized_length]; decide)
  refine ⟨by decide, oversized_invalid, ?_, ?_⟩ <;> rw [h] <;> decide

/-- C3 (amended): every request carrying a JSON-declared body within the
parser's size limit, declared with a decodable `utf-` charset (or none:
utf-8 is the default) and a supported content encoding, whose body is
syntactically invalid JSON, is answered 400 by the middleware before any
route handler runs, uniformly for every target method and path. -/
theorem c3_malformed_400 (req : Request) (b : String)
    (hb : req.body = some b) (hct : hasJsonContentType req = true)
    (hcs : reqCharset req ∈ iconvUtfCharsets)
    (henc : contentEncoding req ∈ supportedEncodings)
    (hlen : ¬ b.length > jsonBodyLimit) (hbad : jsonBodyAccepted b = false) :
    (handle req).status = 400 := by
  have hpre : charsetUtfPrefixed (reqCharset req) = true :=
    iconv_charset_utf _ hcs
  have hmw : jsonMiddleware req = MwResult.reject 400 := by
    unfold jsonMiddleware
    rw [hb]
    simp [hct, hpre, hcs, henc, hlen, hbad]
  unfold handle
  rw [hmw]
  rfl

/-- C3 witness: a POST to `/anything` with a one-brace body and no
charset or encoding headers. -/
theorem c3_malformed_400_witness : (handle postBadBody).status = 400 :=
  c3_malformed_400 postBadBody "\x7b" rfl (by decide) (by decide) (by decide)
    (by decide) (by decide)

/-- C4: evaluating the code at the failing input `GET /`: Express's
`x-powered-by` setting is enabled by default and the source never
disables it, so the response does carry `X-Powered-By: Express`,
contradicting the claim and the repository's own test. -/
theorem c4_x_powered_by_present :
    resHeader (handle plainGetRoot) "X-Powered-By" = some "Express" ∧
      ¬ resHeader (handle plainGetRoot) "X-Powered-By" = none := by
  decide

/-- C5 counterexample: the oversized-body request to `/` is answered 413,
outside the claimed set of 200, 404 and 400. -/
theorem c5_counterexample :
    ¬ ((handle postRootOversized).status = 200 ∨
       (handle postRootOversized).status = 404 ∨
       (handle postRootOversized).status = 400) := by
  have h := oversized_reject postRootOversized oversizedBody rfl (by decide)
    (by decide) (by decide) (by rw [oversized_length]; decide)
  rw [h]
  decide

/-- C5 (amended): every response of the service has status 200, 404,
400, 413 or 415: the middleware contributes 400, 413 and 415 (the last
for unsupported charsets and content encodings), the router 200 and
404. -/
theorem c5_status_set (req : Request) :
    (handle req).status = 200 ∨ (handle req).status = 404 ∨
      (handle req).status = 400 ∨ (handle req).status = 413 ∨
      (handle req).status = 415 := by
  rcases jsonMiddleware_cases req with h | h | h | h
  · rw [handle_ok req h]
    rcases route_status req with h2 | h2
    · exact Or.inl h2
    · exact Or.inr (Or.inl h2)
  · unfold handle
    rw [h]
    exact Or.inr (Or.inr (Or.inl rfl))
  · unfold handle
    rw [h]
    exact Or.inr (Or.inr (Or.inr (Or.inl rfl)))
  · unfold handle
    rw [h]
    exact Or.inr (Or.inr (Or.inr (Or.inr rfl)))

/-- C6: evaluating the module always constructs and exports the handler;
`app.listen` runs exactly when the entry-point check
`import.meta.url === file-URL of argv[1]` holds. -/
theorem c6_conditional_listen (env : ProcessEnv) :
    (runModule env).listening.isSome = isMainModule env ∧
      (runModule env).exportedApp = handle := by
  refine ⟨?_, rfl⟩
  unfold runModule
  cases h : isMainModule env <;> simp [h]

/-- C7: when the module is the entry point it listens on
`process.env.PORT ?? 3000`: the environment string when `PORT` is set,
the number 3000 when it is unset. -/
theorem c7_port (env : ProcessEnv) :
    (isMainModule env = true → (runModule env).listening = some (resolvedPort env)) ∧
      (env.portVar = none → resolvedPort env = Sum.inr 3000) ∧
      (∀ s, env.portVar = some s → resolvedPort env = Sum.inl s) := by
  refine ⟨?_, ?_, ?_⟩
  · intro h
    simp [runModule, h]
  · intro h
    simp [resolvedPort, h]
  · intro s h
    simp [resolvedPort, h]

/-- C7 witness: an entry-point run with `PORT` unset listens on 3000. -/
theorem c7_port_witness :
    (runModule { importMetaUrl := "file:///srv/index.ts", argv1 := "/srv/index.ts",
                 portVar := none }).listening = some (Sum.inr 3000) := by
  have h := c7_port
    { importMetaUrl := "file:///srv/index.ts", argv1 := "/srv/index.ts", portVar := none }
  rw [h.1 (by decide), h.2.1 rfl]

/-- C8 counterexample: two requests, both with method GET and path `/`,
whose response bodies differ: one is bodyless and receives the health
JSON, the other carries a malformed JSON body and receives the 400 error
document, so the claim fails as stated over all pairs of GET `/`
requests. -/
theorem c8_counterexample :
    plainGetRoot.method = Method.GET ∧ plainGetRoot.path = "/" ∧
      getRootBadBody.method = Method.GET ∧ getRootBadBody.path = "/" ∧
      ¬ (handle plainGetRoot).body = (handle getRootBadBody).body := by
  decide

/-- C8 (amended): the handler is a pure function of the request, so any
two `GET /` requests the middleware passes on — whatever their query
parameters or headers — receive byte-identical bodies, each equal to the
health JSON; N such requests receive N byte-identical bodies. -/
theorem c8_identical_bodies (r1 r2 : Request)
    (h1m : r1.method = Method.GET) (h1p : r1.path = "/")
    (h1w : jsonMiddleware r1 = MwResult.ok)
    (h2m : r2.method = Method.GET) (h2p : r2.path = "/")
    (h2w : jsonMiddleware r2 = MwResult.ok) :
    (handle r1).body = (handle r2).body ∧ (handle r1).body = healthBody := by
  rw [handle_get_root r1 h1m h1p h1w, handle_get_root r2 h2m h2p h2w]
  exact ⟨rfl, rfl⟩

/-- C8 witness: the plain `GET /` and a `GET /` with query parameters and
a user-agent header. -/
theorem c8_identical_bodies_witness :
    (handle plainGetRoot).body = (handle getRootQuery).body ∧
      (handle plainGetRoot).body = healthBody :=
  c8_identical_bodies plainGetRoot getRootQuery rfl rfl rfl rfl rfl rfl

/-- C9: a bodyless HEAD request to `/`, with any query parameters and
headers, is answered 200 with an empty body: the router serves the
registered GET handler for HEAD and the body is stripped. -/
theorem c9_head_root (q hs : List (String × String)) :
    handle { method := Method.HEAD, path := "/", query := q, headers := hs, body := none }
      = { status := 200, body := "", contentType := some "application/json"
        , headers := poweredBy } := by
  have hmw : jsonMiddleware
      { method := Method.HEAD, path := "/", query := q, headers := hs, body := none }
      = MwResult.ok := rfl
  rw [handle_ok _ hmw]
  unfold route
  simp

/-- C10 counterexample: an oversized body with `Content-Type` exactly
`application/json` but an unknown content encoding is rejected 415 by the
middleware (`contentstream` throws before raw-body enforces the limit),
not 413, so the claim fails as universally stated over all JSON-declared
oversized requests. -/
theorem c10_counterexample :
    reqHeader postOversizedSnappy "content-type" = some "application/json" ∧
      oversizedBody.length > jsonBodyLimit ∧
      (handle postOversizedSnappy).status = 415 ∧
      ¬ (handle postOversizedSnappy).status = 413 := by
  have h := encoding_reject postOversizedSnappy oversizedBody rfl
    (by decide) (by decide) (by decide)
  refine ⟨by decide, by rw [oversized_length]; decide, ?_, ?_⟩ <;> rw [h] <;> decide

/-- C10 (amended): a request carrying a JSON-declared body over the
default 100kb (102400-byte) limit, declared with a decodable `utf-`
charset (or none) and a supported content encoding, is rejected 413 by
the middleware before any route handler runs, a status outside the
200/404/400 set. -/
theorem c10_oversized_413 (req : Request) (b : String)
    (hb : req.body = some b) (hct : hasJsonContentType req = true)
    (hcs : reqCharset req ∈ iconvUtfCharsets)
    (henc : contentEncoding req ∈ supportedEncodings)
    (hlen : b.length > jsonBodyLimit) :
    (handle req).status = 413 ∧ ¬ (handle req).status = 200 ∧
      ¬ (handle req).status = 404 ∧ ¬ (handle req).status = 400 := by
  rw [oversized_reject req b hb hct hcs henc hlen]
  exact ⟨rfl, by decide, by decide, by decide⟩

/-- C10 witness: the oversized-body POST to `/upload` with no charset or
encoding headers. -/
theorem c10_oversized_413_witness : (handle postOversized).status = 413 :=
  (c10_oversized_413 postOversized oversizedBody rfl (by decide) (by decide)
    (by decide) (by rw [oversized_length]; decide)).1

end BCP
